import Mathlib

/-!
Verification of the QR code generator's payload encoder, renderer chain,
image compositor, export pipeline and UI state transitions, shallowly
embedded from `src/hooks/useQRCodeGenerator.ts` (and the equivalent
component-level code in `src/QRCodeGenerator.tsx`).
-/

namespace QRGen

/-! ### Models of the JavaScript string primitives used by the source -/

/-- Model of JavaScript `String.prototype.trim`: removes whitespace from
both ends of the string. -/
def jsTrim (s : String) : String :=
  ⟨(((s.data.dropWhile Char.isWhitespace).reverse.dropWhile Char.isWhitespace).reverse)⟩

/-- Character-list core of JavaScript `String.prototype.startsWith`:
`startsWithChars pat l` is true when `pat` is an initial segment of `l`. -/
def startsWithChars : List Char → List Char → Bool
  | [], _ => true
  | _ :: _, [] => false
  | p :: ps, c :: cs => p == c && startsWithChars ps cs

/-- Model of JavaScript `s.startsWith(pat)`. -/
def jsStartsWith (s pat : String) : Bool :=
  startsWithChars pat.data s.data

/-! ### Data model (from `useQRCodeGenerator.ts`) -/

/-- The `ContactInfo` record type (lines 7-14 of the hook). -/
structure ContactInfo where
  firstName : String
  lastName : String
  phone : String
  email : String
  organization : String
  url : String
deriving DecidableEq, Repr

/-- `initialContactInfo` (lines 24-31 of the hook). -/
def initialContactInfo : ContactInfo :=
  { firstName := "", lastName := "", phone := "", email := "",
    organization := "", url := "" }

/-- The `ActiveTab` union type `'url' | 'text' | 'contact'`. -/
inductive ActiveTab where
  | url : ActiveTab
  | text : ActiveTab
  | contact : ActiveTab
deriving DecidableEq, Repr

/-- `DEFAULT_FILENAME` constant (line 22 of the hook). -/
def DEFAULT_FILENAME : String := "qr-code"

/-! ### Payload encoder -/

/-- `formatUrl` (hook lines 277-287): blank input maps to the empty string;
inputs lacking an `http://`/`https://` prefix get `https://` prepended;
anything else passes through unchanged. -/
def formatUrl (url : String) : String :=
  if jsTrim url = "" then ""
  else if jsStartsWith url "http://" = false ∧ jsStartsWith url "https://" = false then
    "https://" ++ url
  else url

/-- `generateVCard` (hook lines 289-291): the fixed vCard 3.0 template
string, fields interpolated verbatim with no escaping. -/
def generateVCard (contact : ContactInfo) : String :=
  "BEGIN:VCARD\nVERSION:3.0\nFN:" ++ contact.firstName ++ " " ++ contact.lastName
    ++ "\nN:" ++ contact.lastName ++ ";" ++ contact.firstName ++ ";;;\nORG:"
    ++ contact.organization ++ "\nTEL:" ++ contact.phone ++ "\nEMAIL:"
    ++ contact.email ++ "\nURL:" ++ contact.url ++ "\nEND:VCARD"

/-- The payload derivation `useEffect` (hook lines 458-479): switches on the
active tab; in contact mode a vCard is produced only when at least one of
first name, last name, phone or email is truthy (i.e. a non-empty string). -/
def computePayload (tab : ActiveTab) (urlInput textInput : String)
    (contactInfo : ContactInfo) : String :=
  match tab with
  | ActiveTab.url => formatUrl urlInput
  | ActiveTab.text => textInput
  | ActiveTab.contact =>
      if contactInfo.firstName ≠ "" ∨ contactInfo.lastName ≠ ""
          ∨ contactInfo.phone ≠ "" ∨ contactInfo.email ≠ "" then
        generateVCard contactInfo
      else ""

/-! ### Helper lemmas about the string models -/

theorem startsWithChars_cons_head {p : Char} {ps l : List Char}
    (h : startsWithChars (p :: ps) l = true) : ∃ cs, l = p :: cs := by
  cases l with
  | nil => simp [startsWithChars] at h
  | cons c cs =>
      refine ⟨cs, ?_⟩
      simp only [startsWithChars, Bool.and_eq_true, beq_iff_eq] at h
      rw [h.1]

theorem jsTrim_ne_empty_of_head {s : String} {c : Char} {cs : List Char}
    (hdata : s.data = c :: cs) (hw : c.isWhitespace = false) :
    jsTrim s ≠ "" := by
  intro hcontra
  have hnil : (((s.data.dropWhile Char.isWhitespace).reverse.dropWhile
      Char.isWhitespace).reverse) = [] := congrArg String.data hcontra
  rw [hdata] at hnil
  rw [List.dropWhile_cons, hw] at hnil
  simp only [List.reverse_eq_nil_iff, List.dropWhile_eq_nil_iff,
    List.mem_reverse] at hnil
  have := hnil c (List.mem_cons_self c cs)
  rw [hw] at this
  exact Bool.false_ne_true this

theorem jsTrim_ne_empty_of_startsWith_http {s : String}
    (h : jsStartsWith s "http://" = true ∨ jsStartsWith s "https://" = true) :
    jsTrim s ≠ "" := by
  rcases h with h | h
  all_goals {
    obtain ⟨cs, hcs⟩ := startsWithChars_cons_head h
    exact jsTrim_ne_empty_of_head hcs (by decide)
  }

/-! ### Claim theorems: payload encoder -/

/-- C2. URL-mode encoding: blank inputs yield the empty payload; non-blank
inputs without an `http://`/`https://` scheme get `https://` prepended
exactly once; inputs already carrying a scheme pass through unchanged, so
the encoding is idempotent on them. -/
theorem urlEncoding_spec (url : String) :
    (jsTrim url = "" → formatUrl url = "")
    ∧ (jsTrim url ≠ "" → jsStartsWith url "http://" = false →
        jsStartsWith url "https://" = false →
        formatUrl url = "https://" ++ url)
    ∧ ((jsStartsWith url "http://" = true ∨ jsStartsWith url "https://" = true) →
        formatUrl url = url ∧ formatUrl (formatUrl url) = formatUrl url) := by
  refine ⟨?_, ?_, ?_⟩
  · intro h
    simp [formatUrl, h]
  · intro h1 h2 h3
    simp [formatUrl, h1, h2, h3]
  · intro h
    have hne : jsTrim url ≠ "" := jsTrim_ne_empty_of_startsWith_http h
    have hpass : formatUrl url = url := by
      rcases h with h | h
      · simp [formatUrl, hne, h]
      · simp [formatUrl, hne, h]
    exact ⟨hpass, by rw [hpass, hpass]⟩

theorem urlEncoding_spec_witness :
    formatUrl "   " = ""
    ∧ formatUrl "example.com" = "https://example.com"
    ∧ formatUrl "http://example.com" = "http://example.com" := by
  refine ⟨?_, ?_, ?_⟩
  · exact (urlEncoding_spec "   ").1 (by decide)
  · exact (urlEncoding_spec "example.com").2.1 (by decide) (by decide) (by decide)
  · exact ((urlEncoding_spec "http://example.com").2.2 (Or.inl (by decide))).1

/-- C3. Contact-mode serialization: every non-empty contact record is
serialized to exactly the fixed vCard literal, fields interpolated in order
with line breaks reproduced exactly and no escaping. -/
theorem contactSerialization_spec (u t : String) (c : ContactInfo)
    (h : c.firstName ≠ "" ∨ c.lastName ≠ "" ∨ c.phone ≠ "" ∨ c.email ≠ "") :
    computePayload ActiveTab.contact u t c =
      "BEGIN:VCARD\nVERSION:3.0\nFN:" ++ c.firstName ++ " " ++ c.lastName
        ++ "\nN:" ++ c.lastName ++ ";" ++ c.firstName ++ ";;;\nORG:"
        ++ c.organization ++ "\nTEL:" ++ c.phone ++ "\nEMAIL:"
        ++ c.email ++ "\nURL:" ++ c.url ++ "\nEND:VCARD" := by
  simp only [computePayload, if_pos h]
  rfl

/-- The contact record of the spec's scenario: John Doe with email and
phone, organization and website blank. -/
def johnDoe : ContactInfo :=
  { firstName := "John", lastName := "Doe", phone := "+1234567890",
    email := "john@example.com", organization := "", url := "" }

theorem contactSerialization_spec_witness :
    computePayload ActiveTab.contact "" "" johnDoe =
      "BEGIN:VCARD\nVERSION:3.0\nFN:John Doe\nN:Doe;John;;;\nORG:\nTEL:+1234567890\nEMAIL:john@example.com\nURL:\nEND:VCARD" := by
  have h := contactSerialization_spec "" "" johnDoe (Or.inl (by decide))
  rw [h]
  decide

theorem generateVCard_ne_empty (c : ContactInfo) : generateVCard c ≠ "" := by
  intro hcontra
  have hdata : (generateVCard c).data = [] := by
    rw [hcontra]
  simp [generateVCard, String.data_append, List.append_eq_nil] at hdata

/-- C4. Contact-record emptiness gating: when first name, last name, phone
and email are all empty the contact payload is empty regardless of
organization and website; when at least one of the four is non-empty a
(non-empty) vCard payload is produced. -/
theorem contactEmptinessGating_spec (u t : String) (c : ContactInfo) :
    (c.firstName = "" ∧ c.lastName = "" ∧ c.phone = "" ∧ c.email = "" →
      computePayload ActiveTab.contact u t c = "")
    ∧ (c.firstName ≠ "" ∨ c.lastName ≠ "" ∨ c.phone ≠ "" ∨ c.email ≠ "" →
      computePayload ActiveTab.contact u t c = generateVCard c
        ∧ computePayload ActiveTab.contact u t c ≠ "") := by
  constructor
  · intro h
    have hnot : ¬(c.firstName ≠ "" ∨ c.lastName ≠ "" ∨ c.phone ≠ "" ∨ c.email ≠ "") := by
      push_neg
      exact ⟨h.1, h.2.1, h.2.2.1, h.2.2.2⟩
    simp [computePayload, hnot]
  · intro h
    have heq : computePayload ActiveTab.contact u t c = generateVCard c := by
      simp [computePayload, h]
    exact ⟨heq, heq ▸ generateVCard_ne_empty c⟩

theorem contactEmptinessGating_spec_witness :
    computePayload ActiveTab.contact "" ""
      { firstName := "", lastName := "", phone := "", email := "",
        organization := "ACME Corp", url := "https://acme.example" } = "" :=
  (contactEmptinessGating_spec "" ""
    { firstName := "", lastName := "", phone := "", email := "",
      organization := "ACME Corp", url := "https://acme.example" }).1
    ⟨rfl, rfl, rfl, rfl⟩

/-! ### Primary renderer configuration (`createQR`, hook lines 160-197) -/

/-- The option object handed to `new window.QRious({...})`. -/
structure QRiousConfig where
  value : String
  size : Nat
  background : String
  foreground : String
  level : String
deriving DecidableEq, Repr

/-- The configuration `createQR` builds (hook lines 172-179; identically in
`QRCodeGenerator.tsx` lines 244-251): size 300, the current colors, and
error-correction level the string literal `'M'`, with no dependence on
whether a center image is set. -/
def createQRConfig (text foregroundColor backgroundColor : String)
    (centerImage : Option String) : QRiousConfig :=
  { value := text, size := 300, background := backgroundColor,
    foreground := foregroundColor, level := "M" }

/-- C1 evidence. The Primary renderer is handed error-correction level `'M'`
even when a center image is present (and also when none is), contradicting
the documented `centerImage ⇒ H` invariant. -/
theorem primaryLevel_alwaysM :
    (createQRConfig "https://example.com" "#000000" "#ffffff"
      (some "data:image/png;base64,AAAA")).level = "M"
    ∧ (createQRConfig "https://example.com" "#000000" "#ffffff"
      (some "data:image/png;base64,AAAA")).level ≠ "H"
    ∧ (createQRConfig "https://example.com" "#000000" "#ffffff" none).level = "M" := by
  refine ⟨rfl, by decide, rfl⟩

/-! ### Image compositor geometry (`addCenterImage`, hook lines 83-132) -/

/-- The geometric parameters of one compositor invocation on a square raster:
overlay diameter, backing-circle radius, separator-ring radius and stroke
width, clip radius, circle center, logo draw position, and whether
high-quality resampling is enabled. -/
structure OverlayGeometry where
  diameter : ℚ
  backingRadius : ℚ
  ringRadius : ℚ
  ringWidth : ℚ
  clipRadius : ℚ
  center : ℚ × ℚ
  drawPos : ℚ × ℚ
  smoothingHigh : Bool
deriving DecidableEq, Repr

/-- The geometry `addCenterImage` computes for a canvas of side `S` (hook
lines 99-124): `imageSize = S * 0.25`, backing circle of radius
`imageSize/2 + 8`, stroked ring of radius `imageSize/2 + 6` at width 2,
circular clip of radius `imageSize/2` centered at `(S/2, S/2)`, the logo
drawn at `((S-imageSize)/2, (S-imageSize)/2)` with smoothing quality
`'high'`. -/
def addCenterImageGeometry (S : ℚ) : OverlayGeometry :=
  let imageSize : ℚ := S * (25 / 100)
  { diameter := imageSize
    backingRadius := imageSize / 2 + 8
    ringRadius := imageSize / 2 + 6
    ringWidth := 2
    clipRadius := imageSize / 2
    center := (S / 2, S / 2)
    drawPos := ((S - imageSize) / 2, (S - imageSize) / 2)
    smoothingHigh := true }

/-- C5 evidence. On a side-400 raster the compositor uses an overlay
diameter of 100px (ratio 0.25), not the documented 80px (ratio 0.20); the
8px backing pad, 6px/2px ring, central circular clip and high-quality
resampling all hold relative to that diameter. -/
theorem overlayGeometry_at400 :
    (addCenterImageGeometry 400).diameter = 100
    ∧ (addCenterImageGeometry 400).diameter ≠ 400 * (20 / 100)
    ∧ (addCenterImageGeometry 400).backingRadius
        = (addCenterImageGeometry 400).diameter / 2 + 8
    ∧ (addCenterImageGeometry 400).ringRadius
        = (addCenterImageGeometry 400).diameter / 2 + 6
    ∧ (addCenterImageGeometry 400).ringWidth = 2
    ∧ (addCenterImageGeometry 400).clipRadius
        = (addCenterImageGeometry 400).diameter / 2
    ∧ (addCenterImageGeometry 400).center = (200, 200)
    ∧ (addCenterImageGeometry 400).smoothingHigh = true := by
  refine ⟨by norm_num [addCenterImageGeometry], by norm_num [addCenterImageGeometry],
    by norm_num [addCenterImageGeometry], by norm_num [addCenterImageGeometry],
    rfl, rfl, by norm_num [addCenterImageGeometry], rfl⟩

/-! ### Export filename building (hook lines 56-72 and 363-364) -/

/-- The character class kept by `sanitizeFilename`'s
`.replace(/[^\w\s-]/g, '')`: ASCII letters, digits, underscore, hyphen,
or whitespace. -/
def keepFilenameChar (c : Char) : Bool :=
  c.isAlpha || c.isDigit || c == '_' || c == '-' || c.isWhitespace

/-- `sanitizeFilename` (hook lines 56-62): `(name || DEFAULT_FILENAME)`
stripped of characters outside `[\w\s-]`, trimmed, with the default
substituted when the result is empty. -/
def sanitizeFilename (name : String) : String :=
  let base := if name = "" then DEFAULT_FILENAME else name
  let cleaned := jsTrim ⟨base.data.filter keepFilenameChar⟩
  if cleaned = "" then DEFAULT_FILENAME else cleaned

/-- Model of `String(n).padStart(2, '0')` applied to the date fields. -/
def pad2 (n : Nat) : String :=
  if n < 10 then "0" ++ toString n else toString n

/-- `createTimestampedFilename` (hook lines 64-72), with the wall-clock
reads (`getMonth() + 1`, `getDate()`, `getHours()`, `getMinutes()`) passed
explicitly. -/
def createTimestampedFilename (baseName : String)
    (month day hours minutes : Nat) : String :=
  baseName ++ "-" ++ pad2 month ++ pad2 day ++ "-" ++ pad2 hours ++ pad2 minutes ++ ".png"

/-- The filename computation of `downloadQRCode` (hook lines 363-364):
sanitize, then either timestamp (which appends `.png`) or append `.png`
directly. -/
def buildFilename (nameInput : String) (timestamped : Bool)
    (month day hours minutes : Nat) : String :=
  let baseFilename := sanitizeFilename nameInput
  if timestamped then createTimestampedFilename baseFilename month day hours minutes
  else baseFilename ++ ".png"

/-- C6. Filename building: the base name is the input stripped to
`[\w\s-]` and trimmed, with `qr-code` substituted when that is empty; the
timestamped variant appends `-MMDD-HHMM` with two-digit zero-padded local
fields; `.png` is always appended; and
`buildFilename "" true` at March 5, 14:07 yields `qr-code-0305-1407.png`. -/
theorem filenameBuilding_spec (name : String) (month day hours minutes : Nat) :
    sanitizeFilename name
      = (if jsTrim ⟨name.data.filter keepFilenameChar⟩ = "" then "qr-code"
          else jsTrim ⟨name.data.filter keepFilenameChar⟩)
    ∧ buildFilename name true month day hours minutes
      = sanitizeFilename name ++ "-" ++ pad2 month ++ pad2 day ++ "-"
          ++ pad2 hours ++ pad2 minutes ++ ".png"
    ∧ buildFilename name false month day hours minutes
      = sanitizeFilename name ++ ".png"
    ∧ buildFilename "" true 3 5 14 7 = "qr-code-0305-1407.png" := by
  refine ⟨?_, rfl, rfl, by decide⟩
  by_cases h : name = ""
  · subst h
    decide
  · simp [sanitizeFilename, DEFAULT_FILENAME, h]

/-! ### Hook state, reset, and the hex-color handlers -/

/-- The mutable state of the hook (the `useState` cells of lines 34-52 plus
the container's rendered markup, hook line 37/446-448). The uploaded `File`
object is modelled by its name. -/
structure AppState where
  activeTab : ActiveTab
  qrData : String
  copied : Bool
  foregroundColor : String
  backgroundColor : String
  foregroundHex : String
  backgroundHex : String
  centerImage : Option String
  centerImageFile : Option String
  customFilename : String
  addTimestamp : Bool
  urlInput : String
  textInput : String
  contactInfo : ContactInfo
  containerHTML : String
deriving DecidableEq, Repr

/-- The initial values of every `useState` cell (hook lines 34-52), with an
empty container. -/
def initialState : AppState :=
  { activeTab := ActiveTab.url
    qrData := ""
    copied := false
    foregroundColor := "#000000"
    backgroundColor := "#ffffff"
    foregroundHex := "#000000"
    backgroundHex := "#ffffff"
    centerImage := none
    centerImageFile := none
    customFilename := DEFAULT_FILENAME
    addTimestamp := false
    urlInput := ""
    textInput := ""
    contactInfo := initialContactInfo
    containerHTML := "" }

/-- `resetForm` (hook lines 427-449): clears the three input groups, the
colors and hex fields, the center image, the filename options, the copied
flag, the payload, and the container markup. It issues no `setActiveTab`. -/
def resetForm (s : AppState) : AppState :=
  { s with
    urlInput := ""
    textInput := ""
    contactInfo := initialContactInfo
    foregroundColor := "#000000"
    backgroundColor := "#ffffff"
    foregroundHex := "#000000"
    backgroundHex := "#ffffff"
    centerImage := none
    centerImageFile := none
    customFilename := DEFAULT_FILENAME
    addTimestamp := false
    copied := false
    qrData := ""
    containerHTML := "" }

/-- C7 counterexample. From the reachable state in which the text tab is
active, `resetForm` does not return the state to the initial one: the
active input mode survives the reset. -/
theorem resetForm_not_full_reset :
    resetForm { initialState with activeTab := ActiveTab.text } ≠ initialState
    ∧ (resetForm { initialState with activeTab := ActiveTab.text }).activeTab
        = ActiveTab.text := by
  constructor
  · decide
  · rfl

/-- C7 amended. Invoking the reset operation from any state returns every
entity except the active InputMode to its initial value and clears the
rendered raster; the InputMode is left at whatever mode was active. -/
theorem resetForm_resets_all_but_tab (s : AppState) :
    resetForm s = { initialState with activeTab := s.activeTab } := by
  cases s
  rfl

/-- The hex-validation test `/^#[0-9A-F]{6}$/i.test(hex)` used by both hex
handlers (hook lines 253 and 265): a `#` followed by exactly six
case-insensitive hexadecimal digits. -/
def isValidHexColor (s : String) : Bool :=
  match s.data with
  | '#' :: rest =>
      rest.length == 6 && rest.all (fun c =>
        c.isDigit || (decide ('A' ≤ c) && decide (c ≤ 'F'))
          || (decide ('a' ≤ c) && decide (c ≤ 'f')))
  | _ => false

/-- `handleForegroundHexChange` (hook lines 248-258): always record the raw
text in the hex display state; apply it as the foreground color only when
it passes the hex test. -/
def handleForegroundHexChange (input : String) (s : AppState) : AppState :=
  let s' := { s with foregroundHex := input }
  if isValidHexColor input then { s' with foregroundColor := input } else s'

/-- `handleBackgroundHexChange` (hook lines 260-270): same, for the
background color. -/
def handleBackgroundHexChange (input : String) (s : AppState) : AppState :=
  let s' := { s with backgroundHex := input }
  if isValidHexColor input then { s' with backgroundColor := input } else s'

/-- C10. Hex-color gating: the handlers always record the raw input into
the hex display state; the applied color changes only on input matching
`#` + six hex digits and is untouched otherwise; hence validity of the
applied colors is preserved by both handlers, holds initially, and is
restored by reset. -/
theorem hexGating_invariant (s : AppState) (input : String) :
    (handleForegroundHexChange input s).foregroundHex = input
    ∧ (handleBackgroundHexChange input s).backgroundHex = input
    ∧ (isValidHexColor input = true →
        (handleForegroundHexChange input s).foregroundColor = input
        ∧ (handleBackgroundHexChange input s).backgroundColor = input)
    ∧ (isValidHexColor input = false →
        (handleForegroundHexChange input s).foregroundColor = s.foregroundColor
        ∧ (handleBackgroundHexChange input s).backgroundColor = s.backgroundColor)
    ∧ (isValidHexColor s.foregroundColor = true →
        isValidHexColor (handleForegroundHexChange input s).foregroundColor = true)
    ∧ (isValidHexColor s.backgroundColor = true →
        isValidHexColor (handleBackgroundHexChange input s).backgroundColor = true)
    ∧ isValidHexColor initialState.foregroundColor = true
    ∧ isValidHexColor initialState.backgroundColor = true
    ∧ isValidHexColor (resetForm s).foregroundColor = true
    ∧ isValidHexColor (resetForm s).backgroundColor = true := by
  refine ⟨?_, ?_, ?_, ?_, ?_, ?_, by decide, by decide, ?_, ?_⟩
  · cases hv : isValidHexColor input <;> simp [handleForegroundHexChange, hv]
  · cases hv : isValidHexColor input <;> simp [handleBackgroundHexChange, hv]
  · intro h
    exact ⟨by simp [handleForegroundHexChange, h],
      by simp [handleBackgroundHexChange, h]⟩
  · intro h
    exact ⟨by simp [handleForegroundHexChange, h],
      by simp [handleBackgroundHexChange, h]⟩
  · intro h
    cases hv : isValidHexColor input
    · simpa [handleForegroundHexChange, hv] using h
    · simp [handleForegroundHexChange, hv]
  · intro h
    cases hv : isValidHexColor input
    · simpa [handleBackgroundHexChange, hv] using h
    · simp [handleBackgroundHexChange, hv]
  · show isValidHexColor "#000000" = true
    decide
  · show isValidHexColor "#ffffff" = true
    decide

theorem hexGating_invariant_witness :
    (handleForegroundHexChange "#ABCDEF" initialState).foregroundColor = "#ABCDEF"
    ∧ (handleForegroundHexChange "invalid" initialState).foregroundColor = "#000000" :=
  ⟨((hexGating_invariant initialState "#ABCDEF").2.2.1 (by decide)).1,
   ((hexGating_invariant initialState "invalid").2.2.2.1 (by decide)).1⟩

/-! ### Renderer fallback chain (`generateQRCode` / `generateFallbackQR`,
hook lines 199-228 and 134-158) -/

/-- Uppercase hexadecimal digit for `0 ≤ n ≤ 15`. -/
def hexDigitChar (n : Nat) : Char :=
  if n < 10 then Char.ofNat (48 + n) else Char.ofNat (55 + n)

/-- `%XX` escape of one byte value. -/
def percentByte (b : Nat) : String :=
  "%" ++ String.singleton (hexDigitChar (b / 16 % 16)) ++ String.singleton (hexDigitChar (b % 16))

/-- UTF-8 byte sequence of a Unicode code point. -/
def utf8BytesOfCodepoint (n : Nat) : List Nat :=
  if n < 0x80 then [n]
  else if n < 0x800 then
    [0xC0 + n / 64, 0x80 + n % 64]
  else if n < 0x10000 then
    [0xE0 + n / 4096, 0x80 + n / 64 % 64, 0x80 + n % 64]
  else
    [0xF0 + n / 262144, 0x80 + n / 4096 % 64, 0x80 + n / 64 % 64, 0x80 + n % 64]

/-- The characters `encodeURIComponent` leaves unescaped. -/
def isUriUnescapedChar (c : Char) : Bool :=
  c.isAlpha || c.isDigit || c == '-' || c == '_' || c == '.' || c == '!'
    || c == '~' || c == '*' || c == '\'' || c == '(' || c == ')'

/-- Model of JavaScript `encodeURIComponent`: unreserved characters pass
through, every other character is percent-encoded byte by UTF-8 byte. -/
def encodeURIComponent (s : String) : String :=
  s.data.foldl (fun acc c =>
    acc ++ (if isUriUnescapedChar c then String.singleton c
            else String.join ((utf8BytesOfCodepoint c.toNat).map percentByte))) ""

/-- Fallback A's request URL (hook line 145): the chart service with the
percent-encoded payload as the `chl` query parameter. -/
def chartApiUrl (text : String) : String :=
  "https://chart.googleapis.com/chart?chs=300x300&cht=qr&chl="
    ++ encodeURIComponent text ++ "&choe=UTF-8"

/-- Fallback B's request URL (hook line 152): the QR-image service with the
same encoded payload as the `data` query parameter. -/
def qrServerUrl (text : String) : String :=
  "https://api.qrserver.com/v1/create-qr-code/?size=300x300&data="
    ++ encodeURIComponent text ++ "&format=png&margin=10"

/-- Failure injections for one render pass: whether the lazy QRious script
load succeeds, whether the in-process draw succeeds, and whether each
fallback image's HTTP fetch loads without firing its error event. -/
structure RenderEnv where
  primaryLoadOk : Bool
  primaryDrawOk : Bool
  fallbackAOk : Bool
  fallbackBOk : Bool
deriving DecidableEq, Repr

/-- What the QR container displays after a render pass settles. -/
inductive RenderDisplay where
  | cleared : RenderDisplay
  | canvas : QRiousConfig → RenderDisplay
  | image : String → RenderDisplay
deriving DecidableEq, Repr

/-- `generateFallbackQR` (hook lines 134-158): the container gets an `img`
pointed at Fallback A's URL; the image's `onerror` handler repoints it at
Fallback B's URL. A failure of Fallback B fires no further handler that
changes the source, so the element stays pointed at Fallback B's URL
whether or not that load succeeds. -/
def generateFallbackQRResult (env : RenderEnv) (text : String) : RenderDisplay :=
  if env.fallbackAOk then RenderDisplay.image (chartApiUrl text)
  else RenderDisplay.image (qrServerUrl text)

/-- `createQR` (hook lines 160-197): on a successful draw the container
holds the QRious canvas; any draw error is caught and falls back. -/
def createQRResult (env : RenderEnv) (text foregroundColor backgroundColor : String)
    (centerImage : Option String) : RenderDisplay :=
  if env.primaryDrawOk then
    RenderDisplay.canvas (createQRConfig text foregroundColor backgroundColor centerImage)
  else generateFallbackQRResult env text

/-- `generateQRCode` (hook lines 199-228): blank payloads clear the
container; otherwise the QRious script is loaded lazily when not already
present, a load failure being caught and sent to the fallback path, and a
successful load proceeds to `createQR`. -/
def generateQRCodeResult (env : RenderEnv) (libraryLoaded : Bool)
    (text foregroundColor backgroundColor : String)
    (centerImage : Option String) : RenderDisplay :=
  if jsTrim text = "" then RenderDisplay.cleared
  else if libraryLoaded then createQRResult env text foregroundColor backgroundColor centerImage
  else if env.primaryLoadOk then createQRResult env text foregroundColor backgroundColor centerImage
  else generateFallbackQRResult env text

/-- C8. Fallback chain: with a non-blank payload the Primary renderer is
used whenever the (lazily loaded) library is available and the draw
succeeds; any load or draw failure lands on Fallback A's URL when its
image loads; Fallback B is shown exactly when Fallback A's image errors,
and the display stays pointed at Fallback B's URL even when Fallback B
also fails. -/
theorem fallbackChain_spec (env : RenderEnv) (libraryLoaded : Bool)
    (text fg bg : String) (centerImage : Option String)
    (hblank : jsTrim text ≠ "") :
    ((libraryLoaded || env.primaryLoadOk) = true → env.primaryDrawOk = true →
      generateQRCodeResult env libraryLoaded text fg bg centerImage
        = RenderDisplay.canvas (createQRConfig text fg bg centerImage))
    ∧ (((libraryLoaded || env.primaryLoadOk) = false ∨ env.primaryDrawOk = false) →
        env.fallbackAOk = true →
        generateQRCodeResult env libraryLoaded text fg bg centerImage
          = RenderDisplay.image (chartApiUrl text))
    ∧ (((libraryLoaded || env.primaryLoadOk) = false ∨ env.primaryDrawOk = false) →
        env.fallbackAOk = false →
        generateQRCodeResult env libraryLoaded text fg bg centerImage
          = RenderDisplay.image (qrServerUrl text)) := by
  refine ⟨?_, ?_, ?_⟩
  · intro hload hdraw
    rcases Bool.or_eq_true_iff.mp hload with h | h <;>
      simp [generateQRCodeResult, createQRResult, hblank, h, hdraw]
  · intro hfail hA
    rcases hfail with h | h
    · have h1 : libraryLoaded = false := (Bool.or_eq_false_iff.mp h).1
      have h2 : env.primaryLoadOk = false := (Bool.or_eq_false_iff.mp h).2
      simp [generateQRCodeResult, generateFallbackQRResult, hblank, h1, h2, hA]
    · cases hl : libraryLoaded <;> cases hp : env.primaryLoadOk <;>
        simp [generateQRCodeResult, createQRResult, generateFallbackQRResult,
          hblank, h, hA]
  · intro hfail hA
    rcases hfail with h | h
    · have h1 : libraryLoaded = false := (Bool.or_eq_false_iff.mp h).1
      have h2 : env.primaryLoadOk = false := (Bool.or_eq_false_iff.mp h).2
      simp [generateQRCodeResult, generateFallbackQRResult, hblank, h1, h2, hA]
    · cases hl : libraryLoaded <;> cases hp : env.primaryLoadOk <;>
        simp [generateQRCodeResult, createQRResult, generateFallbackQRResult,
          hblank, h, hA]

theorem fallbackChain_spec_witness :
    generateQRCodeResult ⟨true, true, true, true⟩ false "hello" "#000000" "#ffffff" none
      = RenderDisplay.canvas (createQRConfig "hello" "#000000" "#ffffff" none)
    ∧ generateQRCodeResult ⟨false, true, true, false⟩ false "hello" "#000000" "#ffffff" none
      = RenderDisplay.image (chartApiUrl "hello")
    ∧ generateQRCodeResult ⟨true, false, false, false⟩ false "hello" "#000000" "#ffffff" none
      = RenderDisplay.image (qrServerUrl "hello") :=
  ⟨(fallbackChain_spec ⟨true, true, true, true⟩ false "hello" "#000000" "#ffffff" none
      (by decide)).1 (by decide) (by decide),
   (fallbackChain_spec ⟨false, true, true, false⟩ false "hello" "#000000" "#ffffff" none
      (by decide)).2.1 (Or.inl (by decide)) (by decide),
   (fallbackChain_spec ⟨true, false, false, false⟩ false "hello" "#000000" "#ffffff" none
      (by decide)).2.2 (Or.inr (by decide)) (by decide)⟩

/-! ### Copied-flag timing (`copyToClipboard`, hook lines 408-425) -/

/-- The clipboard-feedback state: the `copied` flag, a fresh-id counter for
`window.setTimeout` handles, the pending set-`copied`-false timers as
`(id, fireTime)` pairs, and the id stored in `copyTimeoutRef`. -/
structure ClipboardState where
  copied : Bool
  nextTimerId : Nat
  pendingTimers : List (Nat × Nat)
  copyTimeoutRef : Option Nat
deriving DecidableEq, Repr

/-- Initial clipboard-feedback state: flag down, no pending timer, empty
ref (hook lines 36 and 54). -/
def initialClipboardState : ClipboardState :=
  { copied := false, nextTimerId := 0, pendingTimers := [], copyTimeoutRef := none }

/-- `window.clearTimeout(id)`: the timer with that handle never fires. -/
def clearTimeoutById (id : Nat) (timers : List (Nat × Nat)) : List (Nat × Nat) :=
  timers.filter (fun p => p.1 != id)

/-- `copyToClipboard` (hook lines 408-425) at wall-clock time `now`: a blank
payload returns early; a rejected clipboard write is caught and changes
nothing; a successful write sets `copied`, clears any timeout whose handle
is in `copyTimeoutRef`, and stores a fresh 2000ms timer in the ref. -/
def copyToClipboardStep (qrData : String) (writeOk : Bool) (now : Nat)
    (s : ClipboardState) : ClipboardState :=
  if qrData = "" then s
  else if writeOk = false then s
  else
    let remaining :=
      match s.copyTimeoutRef with
      | some id => clearTimeoutById id s.pendingTimers
      | none => s.pendingTimers
    { copied := true
      nextTimerId := s.nextTimerId + 1
      pendingTimers := (s.nextTimerId, now + 2000) :: remaining
      copyTimeoutRef := some s.nextTimerId }

/-- The event loop reaching time `now`: every pending timer due at `now`
runs its callback `() => setCopied(false)` and is removed; the ref is not
touched by the callback. -/
def fireTimersAt (now : Nat) (s : ClipboardState) : ClipboardState :=
  if s.pendingTimers.any (fun p => p.2 == now) then
    { s with copied := false
             pendingTimers := s.pendingTimers.filter (fun p => p.2 != now) }
  else s

/-- States in which the pending-timer set is governed by `copyTimeoutRef`:
every pending clear-timer's handle is the one stored in the ref, and at
most one such timer is pending. Holds initially and is preserved by the
copy step (proved inside the C9 theorem). -/
def timersWellFormed (s : ClipboardState) : Prop :=
  (∀ p ∈ s.pendingTimers, s.copyTimeoutRef = some p.1) ∧ s.pendingTimers.length ≤ 1

theorem pendingTimers_after_copy (s : ClipboardState) (payload : String)
    (t : Nat) (hpayload : payload ≠ "") (hwf : timersWellFormed s) :
    copyToClipboardStep payload true t s
      = { copied := true
          nextTimerId := s.nextTimerId + 1
          pendingTimers := [(s.nextTimerId, t + 2000)]
          copyTimeoutRef := some s.nextTimerId } := by
  have hrem :
      (match s.copyTimeoutRef with
        | some id => clearTimeoutById id s.pendingTimers
        | none => s.pendingTimers) = [] := by
    cases href : s.copyTimeoutRef with
    | none =>
        cases hp : s.pendingTimers with
        | nil => simp
        | cons q qs =>
            have := hwf.1 q (by rw [hp]; exact List.mem_cons_self q qs)
            rw [href] at this
            exact absurd this (by simp)
    | some id =>
        simp only [clearTimeoutById, List.filter_eq_nil_iff]
        intro p hp
        have := hwf.1 p hp
        rw [href] at this
        have hid : p.1 = id := by
          injection this with h
          exact h.symm
        simp [hid]
  simp only [copyToClipboardStep, if_neg hpayload]
  rw [hrem]
  simp

/-- C9. Copied-flag timing: a successful copy of a non-empty payload sets
the flag and leaves exactly one pending clear-timer, due exactly 2000ms
later; reaching any other time changes nothing (the flag is not cleared
sooner); reaching the due time clears the flag; and a second copy while
the timer is pending replaces it with a single timer due 2000ms after the
second copy rather than stacking a second callback. -/
theorem copiedFlagTiming_spec (s : ClipboardState) (payload : String)
    (t₁ t₂ : Nat) (hpayload : payload ≠ "") (hwf : timersWellFormed s) :
    (copyToClipboardStep payload true t₁ s).copied = true
    ∧ (copyToClipboardStep payload true t₁ s).pendingTimers
        = [(s.nextTimerId, t₁ + 2000)]
    ∧ (∀ t, t ≠ t₁ + 2000 →
        fireTimersAt t (copyToClipboardStep payload true t₁ s)
          = copyToClipboardStep payload true t₁ s)
    ∧ (fireTimersAt (t₁ + 2000) (copyToClipboardStep payload true t₁ s)).copied = false
    ∧ (copyToClipboardStep payload true t₂ (copyToClipboardStep payload true t₁ s)).pendingTimers
        = [(s.nextTimerId + 1, t₂ + 2000)] := by
  have h₁ := pendingTimers_after_copy s payload t₁ hpayload hwf
  refine ⟨by rw [h₁], by rw [h₁], ?_, ?_, ?_⟩
  · intro t ht
    rw [h₁]
    have hne : ((t₁ + 2000 : Nat) == t) = false := by
      simp [Ne.symm ht]
    simp [fireTimersAt, hne]
  · rw [h₁]
    simp [fireTimersAt]
  · have hwf₁ : timersWellFormed (copyToClipboardStep payload true t₁ s) := by
      rw [h₁]
      constructor
      · intro p hp
        simp only [List.mem_singleton] at hp
        rw [hp]
      · simp
    have h₂ := pendingTimers_after_copy (copyToClipboardStep payload true t₁ s)
      payload t₂ hpayload hwf₁
    rw [h₂, h₁]

theorem copiedFlagTiming_spec_witness :
    (copyToClipboardStep "https://example.com" true 0 initialClipboardState).copied = true
    ∧ (fireTimersAt 2000
        (copyToClipboardStep "https://example.com" true 0 initialClipboardState)).copied = false
    ∧ (copyToClipboardStep "https://example.com" true 500
        (copyToClipboardStep "https://example.com" true 0 initialClipboardState)).pendingTimers
        = [(1, 2500)] := by
  have h := copiedFlagTiming_spec initialClipboardState "https://example.com" 0 500
    (by decide) ⟨by simp [initialClipboardState], by simp [initialClipboardState]⟩
  exact ⟨h.1, h.2.2.2.1, h.2.2.2.2⟩

end QRGen
